import Mathlib

/-!
# gokong service client

A shallow embedding of `services.go`: the service records, the requests the
client issues and the way each operation turns the answer of the admin API
into a Go result pair `(value, error)`.

Pointers to values are `Option`s (`none` is the nil pointer), Go `int` is
`Int`, an `error` is the text its `Error()` method returns, and the HTTP
round trip is a function from the requests issued so far and the current
request to what `End()` hands back.
-/

namespace Gokong

/-! ## Data model -/

/-- The write side record, `ServiceRequest`. -/
structure ServiceRequest where
  Name : Option String
  Protocol : Option String
  Host : Option String
  Port : Option Int
  Path : Option String
  Retries : Option Int
  ConnectTimeout : Option Int
  WriteTimeout : Option Int
  ReadTimeout : Option Int
  Url : Option String
  Tags : List (Option String)
  deriving DecidableEq, Repr

/-- The read side record, `Service`. -/
structure Service where
  Id : Option String
  CreatedAt : Option Int
  UpdatedAt : Option Int
  Protocol : Option String
  Host : Option String
  Port : Option Int
  Path : Option String
  Name : Option String
  Retries : Option Int
  ConnectTimeout : Option Int
  WriteTimeout : Option Int
  ReadTimeout : Option Int
  Url : Option String
  Tags : List (Option String)
  deriving DecidableEq, Repr

/-- One page of the listing, `Services`; `Data` is a slice of pointers. -/
structure Services where
  Data : List (Option Service)
  Next : Option String
  Offset : String
  deriving DecidableEq, Repr

/-- The listing parameters, `ServiceQueryString`. -/
structure ServiceQueryString where
  Offset : String
  Size : Int
  deriving DecidableEq, Repr

/-- A plugin configuration, `ServicePluginConfig`. -/
structure ServicePluginConfig where
  Id : String
  Body : String
  deriving DecidableEq, Repr

/-- The plugin configuration collection, `ServicePluginConfigs`; `ρ` stands for
the untyped `map[string]interface{}` elements. -/
structure ServicePluginConfigs (ρ : Type) where
  Data : List ρ
  Next : String
  Offset : String

/-- The constant `ServicesPath`. -/
def ServicesPath : String := "/services/"

/-! ## JSON payloads -/

/-- The JSON values a service request marshals to. -/
inductive Json where
  | null
  | num (n : Int)
  | str (s : String)
  | arr (xs : List Json)

/-- A pointer to a string: `null` for nil, the string otherwise. -/
def Json.ofStr : Option String → Json
  | none => Json.null
  | some s => Json.str s

/-- A field tagged without `omitempty`: always emitted, `null` for a nil pointer. -/
def fieldAlways (key : String) (v : Option String) : List (String × Json) :=
  [(key, Json.ofStr v)]

/-- A `*string` field tagged `omitempty`: dropped for a nil pointer. -/
def fieldStr (key : String) : Option String → List (String × Json)
  | none => []
  | some s => [(key, Json.str s)]

/-- An `*int` field tagged `omitempty`: dropped for a nil pointer. -/
def fieldInt (key : String) : Option Int → List (String × Json)
  | none => []
  | some n => [(key, Json.num n)]

/-- The `[]*string` field tagged `omitempty`: dropped when the slice has length 0. -/
def fieldTags (key : String) (tags : List (Option String)) : List (String × Json) :=
  if tags.isEmpty then [] else [(key, Json.arr (tags.map Json.ofStr))]

/-- The JSON object of a `ServiceRequest`, field by field after its `json` tags
(lines 29-41): `name`, `protocol` and `host` carry no `omitempty`. -/
def ServiceRequest.toJson (r : ServiceRequest) : List (String × Json) :=
  fieldAlways "name" r.Name ++
  fieldAlways "protocol" r.Protocol ++
  fieldAlways "host" r.Host ++
  fieldInt "port" r.Port ++
  fieldStr "path" r.Path ++
  fieldInt "retries" r.Retries ++
  fieldInt "connect_timeout" r.ConnectTimeout ++
  fieldInt "write_timeout" r.WriteTimeout ++
  fieldInt "read_timeout" r.ReadTimeout ++
  fieldStr "url" r.Url ++
  fieldTags "tags" r.Tags

/-- The value stored under a key of a JSON object, if the key is there. -/
def lookupKey (key : String) : List (String × Json) → Option Json
  | [] => none
  | (k, v) :: rest => if k = key then some v else lookupKey key rest

/-! ## Transport -/

/-- The HTTP verbs the client uses. -/
inductive Method where
  | GET | POST | PATCH | DELETE
  deriving DecidableEq, Repr

/-- What was handed to `Send`. -/
inductive Payload where
  | empty
  | service (r : ServiceRequest)
  | raw (s : String)
  deriving DecidableEq, Repr

/-- A request as the client builds it. -/
structure HttpRequest where
  method : Method
  path : String
  query : Option ServiceQueryString
  payload : Payload
  deriving DecidableEq, Repr

/-- What `End()` returns: either `errs != nil` (with the rendering of the
response pointer and the texts of the errors), or a status code and a body. -/
inductive Exchange where
  | failed (resp : String) (errs : List String)
  | done (status : Int) (body : String)
  deriving DecidableEq, Repr

/-- The remote side: the answer to a request, given the requests issued before it. -/
abbrev Transport := List HttpRequest → HttpRequest → Exchange

/-- Modelled from the spec: `newPost` lives outside `services.go`; section 6
gives the verb, POST for create. -/
def newPost (path : String) : HttpRequest := ⟨Method.POST, path, none, Payload.empty⟩

/-- Modelled from the spec: `newGet` lives outside `services.go`; section 6
gives the verb, GET for read and list. -/
def newGet (path : String) : HttpRequest := ⟨Method.GET, path, none, Payload.empty⟩

/-- Modelled from the spec: `newPatch` lives outside `services.go`; section 6
gives the verb, PATCH for update. -/
def newPatch (path : String) : HttpRequest := ⟨Method.PATCH, path, none, Payload.empty⟩

/-- Modelled from the spec: `newDelete` lives outside `services.go`; section 6
gives the verb, DELETE for delete. -/
def newDelete (path : String) : HttpRequest := ⟨Method.DELETE, path, none, Payload.empty⟩

/-- The builder step `.Send(serviceRequest)`. -/
def HttpRequest.Send (req : HttpRequest) (r : ServiceRequest) : HttpRequest :=
  { req with payload := Payload.service r }

/-- The builder step `.Send(pluginConfig)` with a raw string. -/
def HttpRequest.SendRaw (req : HttpRequest) (s : String) : HttpRequest :=
  { req with payload := Payload.raw s }

/-- The builder step `.Query(*query)`: the query struct is copied into the request. -/
def HttpRequest.Query (req : HttpRequest) (q : ServiceQueryString) : HttpRequest :=
  { req with query := some q }

/-- The `%v` rendering of a slice of errors. -/
def fmtErrs (errs : List String) : String := "[" ++ " ".intercalate errs ++ "]"

/-- The `json.Unmarshal` calls of the client, one per target type; each starts
from a fresh zero value, so it is a function of the body alone. -/
structure Decoders (ρ : Type) where
  service : String → Except String Service
  services : String → Except String Services
  pluginConfig : String → Except String ServicePluginConfig
  pluginConfigs : String → Except String (ServicePluginConfigs ρ)

/-! ## Results -/

/-- The outcome of an operation returning `(*T, error)`, with the requests
issued up to its return. -/
structure Run (β : Type) where
  log : List HttpRequest
  value : Option β
  err : Option String

/-- The outcome of `Create`: as `Run`, with the caller's request record as the
call leaves it. -/
structure CreateRun where
  log : List HttpRequest
  request : ServiceRequest
  value : Option Service
  err : Option String

/-- The outcome of an operation returning only `error`. -/
structure ErrRun where
  log : List HttpRequest
  err : Option String

/-- The outcome of `GetServices`: `result` is `none` while the loop is still
running when the iteration budget ends, else the returned pair. -/
structure ListRun where
  log : List HttpRequest
  query : ServiceQueryString
  result : Option (Option (List (Option Service)) × Option String)

/-! ## Operations -/

/-- The default injection at the head of `Create` (lines 85-103). -/
def injectDefaults (serviceRequest : ServiceRequest) : ServiceRequest :=
  let r1 := if serviceRequest.Port = none then { serviceRequest with Port := some 80 } else serviceRequest
  let r2 := if r1.Retries = none then { r1 with Retries := some 5 } else r1
  let r3 := if r2.ConnectTimeout = none then { r2 with ConnectTimeout := some 60000 } else r2
  let r4 := if r3.ReadTimeout = none then { r3 with ReadTimeout := some 60000 } else r3
  if r4.WriteTimeout = none then { r4 with WriteTimeout := some 60000 } else r4

/-- The method `Create` (lines 84-129). -/
def Create {ρ : Type} (d : Decoders ρ) (t : Transport) (log : List HttpRequest)
    (serviceRequest : ServiceRequest) : CreateRun :=
  let serviceRequest := injectDefaults serviceRequest
  let req := (newPost ServicesPath).Send serviceRequest
  match t log req with
  | Exchange.failed _ errs =>
    ⟨log ++ [req], serviceRequest, none,
      some ("could not register the service, error: " ++ fmtErrs errs)⟩
  | Exchange.done status body =>
    if status = 401 ∨ status = 403 then
      ⟨log ++ [req], serviceRequest, none, some ("not authorised, message from kong: " ++ body)⟩
    else if status = 400 then
      ⟨log ++ [req], serviceRequest, none, some ("bad request, message from kong: " ++ body)⟩
    else
      match d.service body with
      | Except.error e =>
        ⟨log ++ [req], serviceRequest, none,
          some ("could not parse service get response, error: " ++ e)⟩
      | Except.ok createdService =>
        if createdService.Id = none then
          ⟨log ++ [req], serviceRequest, none,
            some ("could not register the service, error: " ++ body)⟩
        else
          ⟨log ++ [req], serviceRequest, some createdService, none⟩

/-- The method `getService` (lines 143-164). -/
def getService {ρ : Type} (d : Decoders ρ) (t : Transport) (log : List HttpRequest)
    (endpoint : String) : Run Service :=
  let req := newGet endpoint
  match t log req with
  | Exchange.failed _ errs =>
    ⟨log ++ [req], none, some ("could not get the service, error: " ++ fmtErrs errs)⟩
  | Exchange.done status body =>
    if status = 401 ∨ status = 403 then
      ⟨log ++ [req], none, some ("not authorised, message from kong: " ++ body)⟩
    else
      match d.service body with
      | Except.error e =>
        ⟨log ++ [req], none, some ("could not parse service get response, error: " ++ e)⟩
      | Except.ok service =>
        if service.Id = none then ⟨log ++ [req], none, none⟩
        else ⟨log ++ [req], some service, none⟩

/-- The method `GetServiceById` (lines 135-137). -/
def GetServiceById {ρ : Type} (d : Decoders ρ) (t : Transport) (log : List HttpRequest)
    (id : String) : Run Service :=
  getService d t log (ServicesPath ++ id)

/-- The method `GetServiceByName` (lines 131-133). -/
def GetServiceByName {ρ : Type} (d : Decoders ρ) (t : Transport) (log : List HttpRequest)
    (name : String) : Run Service :=
  GetServiceById d t log name

/-- The method `GetServiceFromRouteId` (lines 139-141). -/
def GetServiceFromRouteId {ρ : Type} (d : Decoders ρ) (t : Transport) (log : List HttpRequest)
    (id : String) : Run Service :=
  getService d t log ("/routes/" ++ id ++ "/service")

/-- The size normalisation at the head of `GetServices` (lines 169-175). -/
def normalizeSize (query : ServiceQueryString) : ServiceQueryString :=
  let q1 := if query.Size = 0 ∨ query.Size < 100 then { query with Size := 100 } else query
  if q1.Size > 1000 then { q1 with Size := 1000 } else q1

/-- The `for` loop of `GetServices` (lines 177-201), one iteration per unit of
`fuel`; `services` is the accumulator. -/
def getServicesLoop {ρ : Type} (d : Decoders ρ) (t : Transport) :
    Nat → List HttpRequest → ServiceQueryString → List (Option Service) → ListRun
  | 0, log, query, _ => ⟨log, query, none⟩
  | fuel + 1, log, query, services =>
    let req := (newGet ServicesPath).Query query
    match t log req with
    | Exchange.failed _ errs =>
      ⟨log ++ [req], query,
        some (none, some ("could not get the service, error: " ++ fmtErrs errs))⟩
    | Exchange.done status body =>
      if status = 401 ∨ status = 403 then
        ⟨log ++ [req], query, some (none, some ("not authorised, message from kong: " ++ body))⟩
      else
        match d.services body with
        | Except.error e =>
          ⟨log ++ [req], query,
            some (none, some ("could not parse service get response, error: " ++ e))⟩
        | Except.ok data =>
          if data.Next = none ∨ data.Next = some "" then
            ⟨log ++ [req], query, some (some (services ++ data.Data), none)⟩
          else
            getServicesLoop d t fuel (log ++ [req]) { query with Offset := data.Offset }
              (services ++ data.Data)

/-- The method `GetServices` (lines 166-204). -/
def GetServices {ρ : Type} (d : Decoders ρ) (t : Transport) (fuel : Nat)
    (log : List HttpRequest) (query : ServiceQueryString) : ListRun :=
  getServicesLoop d t fuel log (normalizeSize query) []

/-- The method `updateService` (lines 239-264). -/
def updateService {ρ : Type} (d : Decoders ρ) (t : Transport) (log : List HttpRequest)
    (requestPath : String) (serviceRequest : ServiceRequest) : Run Service :=
  let req := (newPatch requestPath).Send serviceRequest
  match t log req with
  | Exchange.failed _ errs =>
    ⟨log ++ [req], none, some ("could not update service, error: " ++ fmtErrs errs)⟩
  | Exchange.done status body =>
    if status = 401 ∨ status = 403 then
      ⟨log ++ [req], none, some ("not authorised, message from kong: " ++ body)⟩
    else if status = 400 then
      ⟨log ++ [req], none, some ("bad request, message from kong: " ++ body)⟩
    else
      match d.service body with
      | Except.error e =>
        ⟨log ++ [req], none, some ("could not parse service update response, error: " ++ e)⟩
      | Except.ok updatedService =>
        if updatedService.Id = none then
          ⟨log ++ [req], none, some ("could not update service, error: " ++ body)⟩
        else ⟨log ++ [req], some updatedService, none⟩

/-- The method `UpdateServiceById` (lines 210-212). -/
def UpdateServiceById {ρ : Type} (d : Decoders ρ) (t : Transport) (log : List HttpRequest)
    (id : String) (serviceRequest : ServiceRequest) : Run Service :=
  updateService d t log (ServicesPath ++ id) serviceRequest

/-- The method `UpdateServiceByName` (lines 206-208). -/
def UpdateServiceByName {ρ : Type} (d : Decoders ρ) (t : Transport) (log : List HttpRequest)
    (name : String) (serviceRequest : ServiceRequest) : Run Service :=
  UpdateServiceById d t log name serviceRequest

/-- The method `UpdateServicebyRouteId` (lines 214-216). -/
def UpdateServicebyRouteId {ρ : Type} (d : Decoders ρ) (t : Transport) (log : List HttpRequest)
    (id : String) (serviceRequest : ServiceRequest) : Run Service :=
  updateService d t log ("/routes/" ++ id ++ "/service") serviceRequest

/-- The method `DeleteServiceById` (lines 222-237). -/
def DeleteServiceById (t : Transport) (log : List HttpRequest) (id : String) : ErrRun :=
  let req := newDelete (ServicesPath ++ id)
  match t log req with
  | Exchange.failed resp errs =>
    ⟨log ++ [req],
      some ("could not delete the service, result: " ++ resp ++ " error: " ++ fmtErrs errs)⟩
  | Exchange.done status body =>
    if status = 400 then
      ⟨log ++ [req], some ("bad request, message from kong: " ++ body)⟩
    else if status = 401 ∨ status = 403 then
      ⟨log ++ [req], some ("not authorised, message from kong: " ++ body)⟩
    else ⟨log ++ [req], none⟩

/-- The method `DeleteServiceByName` (lines 218-220). -/
def DeleteServiceByName (t : Transport) (log : List HttpRequest) (name : String) : ErrRun :=
  DeleteServiceById t log name

/-- The method `CreatePluginConfig` (lines 266-289). -/
def CreatePluginConfig {ρ : Type} (d : Decoders ρ) (t : Transport) (log : List HttpRequest)
    (serviceId pluginName pluginConfig : String) : Run ServicePluginConfig :=
  let req := (newPost (ServicesPath ++ serviceId ++ "/" ++ pluginName)).SendRaw pluginConfig
  match t log req with
  | Exchange.failed _ errs =>
    ⟨log ++ [req], none,
      some ("could not configure plugin for service, error: " ++ fmtErrs errs)⟩
  | Exchange.done status body =>
    if status = 401 ∨ status = 403 then
      ⟨log ++ [req], none, some ("not authorised, message from kong: " ++ body)⟩
    else
      match d.pluginConfig body with
      | Except.error e =>
        ⟨log ++ [req], none,
          some ("could not parse service plugin config created response, error: " ++ e)⟩
      | Except.ok createdServicePluginConfig =>
        if createdServicePluginConfig.Id = "" then
          ⟨log ++ [req], none,
            some ("could not create service plugin config, error: " ++ body)⟩
        else
          ⟨log ++ [req], some { createdServicePluginConfig with Body := body }, none⟩

/-- The method `GetPluginConfig` (lines 291-314). -/
def GetPluginConfig {ρ : Type} (d : Decoders ρ) (t : Transport) (log : List HttpRequest)
    (serviceId pluginName id : String) : Run ServicePluginConfig :=
  let req := newGet (ServicesPath ++ serviceId ++ "/" ++ pluginName ++ "/" ++ id)
  match t log req with
  | Exchange.failed _ errs =>
    ⟨log ++ [req], none,
      some ("could not get plugin config for service, error: " ++ fmtErrs errs)⟩
  | Exchange.done status body =>
    if status = 401 ∨ status = 403 then
      ⟨log ++ [req], none, some ("not authorised, message from kong: " ++ body)⟩
    else
      match d.pluginConfig body with
      | Except.error e =>
        ⟨log ++ [req], none,
          some ("could not parse service plugin config response, error: " ++ e)⟩
      | Except.ok servicePluginConfig =>
        if servicePluginConfig.Id = "" then ⟨log ++ [req], none, none⟩
        else ⟨log ++ [req], some { servicePluginConfig with Body := body }, none⟩

/-- The method `GetPluginConfigs` (lines 316-336). -/
def GetPluginConfigs {ρ : Type} (d : Decoders ρ) (t : Transport) (log : List HttpRequest)
    (serviceId pluginName : String) : Run (List ρ) :=
  let req := newGet (ServicesPath ++ serviceId ++ "/" ++ pluginName)
  match t log req with
  | Exchange.failed _ errs =>
    ⟨log ++ [req], none,
      some ("could not get plugin config for service, error: " ++ fmtErrs errs)⟩
  | Exchange.done status body =>
    if status = 401 ∨ status = 403 then
      ⟨log ++ [req], none, some ("not authorised, message from kong: " ++ body)⟩
    else
      match d.pluginConfigs body with
      | Except.error e =>
        ⟨log ++ [req], none,
          some ("could not parse service plugin config response, error: " ++ e)⟩
      | Except.ok servicePluginConfigs =>
        if servicePluginConfigs.Data.length = 0 then ⟨log ++ [req], none, none⟩
        else ⟨log ++ [req], some servicePluginConfigs.Data, none⟩

/-- The method `DeletePluginConfig` (lines 338-349). -/
def DeletePluginConfig (t : Transport) (log : List HttpRequest)
    (serviceId pluginName id : String) : ErrRun :=
  let req := newDelete (ServicesPath ++ serviceId ++ "/" ++ pluginName ++ "/" ++ id)
  match t log req with
  | Exchange.failed _ errs =>
    ⟨log ++ [req], some ("could not delete plugin config for service, error: " ++ fmtErrs errs)⟩
  | Exchange.done status body =>
    if status = 401 ∨ status = 403 then
      ⟨log ++ [req], some ("not authorised, message from kong: " ++ body)⟩
    else ⟨log ++ [req], none⟩

/-! ## Vocabulary of the statements -/

/-- The request `GetServices` builds for one page (line 180). -/
def pageRequest (query : ServiceQueryString) : HttpRequest :=
  (newGet ServicesPath).Query query

/-- A page announces a successor: its `next` is neither absent nor empty
(the negation of the `break` test on line 196). -/
def hasNext (p : Services) : Prop := ¬ (p.Next = none ∨ p.Next = some "")

instance (p : Services) : Decidable (hasNext p) := by
  unfold hasNext; infer_instance

/-- The requests that fetch the given pages one after the other, starting from `query`. -/
def pageRequests (query : ServiceQueryString) : List Services → List HttpRequest
  | [] => []
  | p :: ps => pageRequest query :: pageRequests { query with Offset := p.Offset } ps

/-- The query record after the given pages were fetched and each announced a successor. -/
def queryAfter (query : ServiceQueryString) : List Services → ServiceQueryString
  | [] => query
  | p :: ps => queryAfter { query with Offset := p.Offset } ps

/-- The remote side serves the given pages in turn: each page request is
answered without transport error, with a status other than 401 and 403, and
with a body that decodes to the page. -/
def Served {ρ : Type} (d : Decoders ρ) (t : Transport) :
    List HttpRequest → ServiceQueryString → List Services → Prop
  | _, _, [] => True
  | log, query, p :: ps =>
    (∃ status body, t log (pageRequest query) = Exchange.done status body ∧
      status ≠ 401 ∧ status ≠ 403 ∧ d.services body = Except.ok p) ∧
    Served d t (log ++ [pageRequest query]) { query with Offset := p.Offset } ps

/-- A page fetch fails: the transport reports an error, or the status is 401
or 403, or the body does not decode. -/
def pageFails {ρ : Type} (d : Decoders ρ) : Exchange → Prop
  | Exchange.failed _ _ => True
  | Exchange.done status body =>
    status = 401 ∨ status = 403 ∨ ∃ e, d.services body = Except.error e

/-! ## Sample values -/

/-- A service as the admin API returns it. -/
def sampleService : Service :=
  { Id := some "abc", CreatedAt := some 1, UpdatedAt := some 1, Protocol := some "http",
    Host := some "foo.com", Port := some 80, Path := none, Name := some "svc-1",
    Retries := some 5, ConnectTimeout := some 60000, WriteTimeout := some 60000,
    ReadTimeout := some 60000, Url := none, Tags := [] }

/-- A service request with only protocol, host and name set. -/
def sampleRequest : ServiceRequest :=
  { Name := some "svc-1", Protocol := some "http", Host := some "foo.com", Port := none,
    Path := none, Retries := none, ConnectTimeout := none, WriteTimeout := none,
    ReadTimeout := none, Url := none, Tags := [] }

/-- A first page of 100 elements that announces a successor. -/
def samplePage0 : Services := ⟨List.replicate 100 (some sampleService), some "/services?offset=o1", "o1"⟩

/-- A second page of 40 elements, the last one. -/
def samplePage1 : Services := ⟨List.replicate 40 (some sampleService), none, ""⟩

/-- Decoders that read the bodies `page0` and `page1` as the two sample pages,
`svc` as the sample service, `cfg` as a plugin configuration, and reject
the body `garbage`. -/
def sampleDecoders : Decoders Unit where
  service := fun body =>
    if body = "svc" then Except.ok sampleService
    else if body = "garbage" then Except.error "invalid character"
    else Except.ok { sampleService with Id := none }
  services := fun body =>
    if body = "page0" then Except.ok samplePage0
    else if body = "page1" then Except.ok samplePage1
    else Except.error "invalid character"
  pluginConfig := fun body =>
    if body = "cfg" then Except.ok ⟨"c1", ""⟩
    else if body = "garbage" then Except.error "invalid character"
    else Except.ok ⟨"", ""⟩
  pluginConfigs := fun body =>
    if body = "garbage" then Except.error "invalid character" else Except.ok ⟨[], "", ""⟩

/-- A remote side that answers every request with the given status and body. -/
def constTransport (status : Int) (body : String) : Transport :=
  fun _ _ => Exchange.done status body

/-- A remote side that serves the two sample pages: the first to the request
without offset, the second to any other. -/
def pagedTransport : Transport :=
  fun _ req =>
    if req.query.map (fun q => q.Offset) = some "" then Exchange.done 200 "page0"
    else Exchange.done 200 "page1"

/-- A remote side that serves the first sample page and then fails with the
given exchange. -/
def failingTransport (x : Exchange) : Transport :=
  fun log _ => if log.length = 0 then Exchange.done 200 "page0" else x

/-- An update request that sets only the host. -/
def hostOnlyRequest : ServiceRequest :=
  { Name := none, Protocol := none, Host := some "bar.io", Port := none, Path := none,
    Retries := none, ConnectTimeout := none, WriteTimeout := none, ReadTimeout := none,
    Url := none, Tags := [] }

/-- Decoders whose plugin configuration collection holds two records for the
body `two` and none for any other body; the other targets decode as with
`sampleDecoders`. -/
def sampleConfigDecoders : Decoders (List (String × String)) where
  service := sampleDecoders.service
  services := sampleDecoders.services
  pluginConfig := sampleDecoders.pluginConfig
  pluginConfigs := fun body =>
    if body = "two" then Except.ok ⟨[[("key", "a36c")], [("key", "b325")]], "", ""⟩
    else Except.ok ⟨[], "", ""⟩

/-! ## Lemmas on the listing loop -/

theorem pageRequests_through (query : ServiceQueryString) (ps : List Services) :
    pageRequests query ps ++ [pageRequest (queryAfter query ps)] =
      (query.Offset :: ps.map (fun p => p.Offset)).map
        (fun o => pageRequest ⟨o, query.Size⟩) := by
  induction ps generalizing query with
  | nil => rfl
  | cons p ps ih => simp [pageRequests, queryAfter, ih]

theorem served_append {ρ : Type} (d : Decoders ρ) (t : Transport) (ps qs : List Services) :
    ∀ (log : List HttpRequest) (query : ServiceQueryString),
      Served d t log query (ps ++ qs) ↔
        (Served d t log query ps ∧
          Served d t (log ++ pageRequests query ps) (queryAfter query ps) qs) := by
  induction ps with
  | nil => intro log query; simp [Served, pageRequests, queryAfter]
  | cons p ps ih =>
    intro log query
    simp [Served, pageRequests, queryAfter, ih, and_assoc]

theorem normalizeSize_offset (query : ServiceQueryString) :
    (normalizeSize query).Offset = query.Offset := by
  unfold normalizeSize
  dsimp only
  split_ifs <;> rfl

/-- While every served page announces a successor, the loop consumes one unit
of fuel per page, logs its request, moves the offset and extends the accumulator. -/
theorem getServicesLoop_served {ρ : Type} (d : Decoders ρ) (t : Transport)
    (pages : List Services) :
    ∀ (fuel : Nat) (log : List HttpRequest) (query : ServiceQueryString)
      (acc : List (Option Service)),
      Served d t log query pages → (∀ p ∈ pages, hasNext p) →
      getServicesLoop d t (pages.length + fuel) log query acc =
        getServicesLoop d t fuel (log ++ pageRequests query pages) (queryAfter query pages)
          (acc ++ (pages.map (fun p => p.Data)).flatten) := by
  induction pages with
  | nil => intro fuel log query acc _ _; simp [pageRequests, queryAfter]
  | cons p ps ih =>
    intro fuel log query acc hs hn
    obtain ⟨⟨status, body, ht, h401, h403, hd⟩, hrest⟩ := hs
    have hp : hasNext p := hn p (List.mem_cons_self _ _)
    have hps : ∀ q ∈ ps, hasNext q := fun q hq => hn q (List.mem_cons_of_mem _ hq)
    have hlen : (p :: ps).length + fuel = (ps.length + fuel) + 1 := by
      simp only [List.length_cons]; omega
    have hstep : ¬ (p.Next = none ∨ p.Next = some "") := hp
    rw [hlen, getServicesLoop]
    have ht2 : t log ((newGet ServicesPath).Query query) = Exchange.done status body := ht
    simp only [ht2, hd, h401, h403, or_self, if_false, hstep]
    have h := ih fuel _ _ (acc ++ p.Data) hrest hps
    simp only [pageRequest] at h
    rw [h]
    simp [pageRequests, queryAfter, pageRequest]

/-- Every request the loop adds to the log is a page request carrying the size
the loop was entered with, and an iteration adds at least one. -/
theorem getServicesLoop_log {ρ : Type} (d : Decoders ρ) (t : Transport) :
    ∀ (fuel : Nat) (log : List HttpRequest) (query : ServiceQueryString)
      (acc : List (Option Service)),
      ∃ sent, (getServicesLoop d t fuel log query acc).log = log ++ sent ∧
        (fuel ≠ 0 → sent ≠ []) ∧
        ∀ r ∈ sent, ∃ offset, r = pageRequest ⟨offset, query.Size⟩ := by
  intro fuel
  induction fuel with
  | zero => intro log query acc; exact ⟨[], by simp [getServicesLoop]⟩
  | succ n ih =>
    intro log query acc
    have hone : ∀ r ∈ [pageRequest query], ∃ offset, r = pageRequest ⟨offset, query.Size⟩ := by
      intro r hr
      rw [List.mem_singleton] at hr
      exact ⟨query.Offset, by rw [hr]⟩
    rw [getServicesLoop]
    cases ht : t log ((newGet ServicesPath).Query query) with
    | failed resp errs => exact ⟨[pageRequest query], rfl, by simp, hone⟩
    | done status body =>
      by_cases hs : status = 401 ∨ status = 403
      · simp only [hs, if_true]
        exact ⟨[pageRequest query], rfl, by simp, hone⟩
      · simp only [hs, if_false]
        cases hd : d.services body with
        | error e => exact ⟨[pageRequest query], rfl, by simp, hone⟩
        | ok data =>
          by_cases hn : data.Next = none ∨ data.Next = some ""
          · simp only [hn, if_true]
            exact ⟨[pageRequest query], rfl, by simp, hone⟩
          · simp only [hn, if_false]
            obtain ⟨sent, hlog, _, hall⟩ :=
              ih (log ++ [(newGet ServicesPath).Query query])
                { query with Offset := data.Offset } (acc ++ data.Data)
            refine ⟨pageRequest query :: sent, ?_, by simp, ?_⟩
            · rw [hlog]; simp [pageRequest]
            · intro r hr
              rcases List.mem_cons.mp hr with h | h
              · exact ⟨query.Offset, by rw [h]⟩
              · exact hall r h

/-- One iteration on a page that announces no successor ends the loop with
the accumulator extended by the page. -/
theorem getServicesLoop_last {ρ : Type} (d : Decoders ρ) (t : Transport) (fuel : Nat)
    (log : List HttpRequest) (query : ServiceQueryString) (acc : List (Option Service))
    (last : Services) (hs : Served d t log query [last])
    (hlast : last.Next = none ∨ last.Next = some "") :
    getServicesLoop d t (fuel + 1) log query acc =
      ⟨log ++ [pageRequest query], query, some (some (acc ++ last.Data), none)⟩ := by
  obtain ⟨⟨status, body, ht, h401, h403, hd⟩, _⟩ := hs
  have ht2 : t log ((newGet ServicesPath).Query query) = Exchange.done status body := ht
  rw [getServicesLoop]
  simp only [ht2, hd, h401, h403, or_self, if_false, hlast, if_true]
  rfl

/-- One iteration on a failing page fetch ends the loop with a nil sequence
and an error. -/
theorem getServicesLoop_fail {ρ : Type} (d : Decoders ρ) (t : Transport) (fuel : Nat)
    (log : List HttpRequest) (query : ServiceQueryString) (acc : List (Option Service))
    (hf : pageFails d (t log (pageRequest query))) :
    ∃ e, getServicesLoop d t (fuel + 1) log query acc =
      ⟨log ++ [pageRequest query], query, some (none, some e)⟩ := by
  rw [getServicesLoop]
  have hreq : (newGet ServicesPath).Query query = pageRequest query := rfl
  rw [hreq]
  cases ht : t log (pageRequest query) with
  | failed resp errs => exact ⟨_, rfl⟩
  | done status body =>
    by_cases hs : status = 401 ∨ status = 403
    · simp only [hs, if_true]
      exact ⟨_, rfl⟩
    · simp only [hs, if_false]
      rw [ht] at hf
      rcases hf with h | h | ⟨e, he⟩
      · exact absurd (Or.inl h) hs
      · exact absurd (Or.inr h) hs
      · simp only [he]
        exact ⟨_, rfl⟩

/-- One iteration on a page answered with 401 or 403 ends the loop with the
"not authorised" error carrying the body. -/
theorem getServicesLoop_unauthorised {ρ : Type} (d : Decoders ρ) (t : Transport) (fuel : Nat)
    (log : List HttpRequest) (query : ServiceQueryString) (acc : List (Option Service))
    (status : Int) (b : String) (hs : status = 401 ∨ status = 403)
    (ht : t log (pageRequest query) = Exchange.done status b) :
    getServicesLoop d t (fuel + 1) log query acc =
      ⟨log ++ [pageRequest query], query,
        some (none, some ("not authorised, message from kong: " ++ b))⟩ := by
  have ht2 : t log ((newGet ServicesPath).Query query) = Exchange.done status b := ht
  rw [getServicesLoop]
  simp only [ht2, hs, if_true]
  rfl

/-- An iteration of the loop first logs the page request for the query it
was entered with. -/
theorem getServicesLoop_first {ρ : Type} (d : Decoders ρ) (t : Transport) (fuel : Nat)
    (log : List HttpRequest) (query : ServiceQueryString) (acc : List (Option Service)) :
    ∃ rest, (getServicesLoop d t (fuel + 1) log query acc).log =
      log ++ pageRequest query :: rest := by
  rw [getServicesLoop]
  cases ht : t log ((newGet ServicesPath).Query query) with
  | failed resp errs => exact ⟨[], rfl⟩
  | done status body =>
    by_cases hs : status = 401 ∨ status = 403
    · simp only [hs, if_true]
      exact ⟨[], rfl⟩
    · simp only [hs, if_false]
      cases hd : d.services body with
      | error e => exact ⟨[], rfl⟩
      | ok data =>
        by_cases hn : data.Next = none ∨ data.Next = some ""
        · simp only [hn, if_true]
          exact ⟨[], rfl⟩
        · simp only [hn, if_false]
          obtain ⟨sent, hlog, _, _⟩ :=
            getServicesLoop_log d t fuel (log ++ [(newGet ServicesPath).Query query])
              { query with Offset := data.Offset } (acc ++ data.Data)
          refine ⟨sent, ?_⟩
          rw [hlog]
          simp [pageRequest]

/-! ## Lemmas on requests and payloads -/

theorem injectDefaults_fields (r : ServiceRequest) :
    (injectDefaults r).Port = some (r.Port.getD 80) ∧
    (injectDefaults r).Retries = some (r.Retries.getD 5) ∧
    (injectDefaults r).ConnectTimeout = some (r.ConnectTimeout.getD 60000) ∧
    (injectDefaults r).ReadTimeout = some (r.ReadTimeout.getD 60000) ∧
    (injectDefaults r).WriteTimeout = some (r.WriteTimeout.getD 60000) ∧
    (injectDefaults r).Name = r.Name ∧ (injectDefaults r).Protocol = r.Protocol ∧
    (injectDefaults r).Host = r.Host ∧ (injectDefaults r).Path = r.Path ∧
    (injectDefaults r).Url = r.Url ∧ (injectDefaults r).Tags = r.Tags := by
  rcases r with ⟨n, pr, h, po, pa, re, ct, wt, rt, u, tg⟩
  cases po <;> cases re <;> cases ct <;> cases wt <;> cases rt <;> simp [injectDefaults]

theorem Create_log {ρ : Type} (d : Decoders ρ) (t : Transport) (log : List HttpRequest)
    (r : ServiceRequest) :
    (Create d t log r).log = log ++ [(newPost ServicesPath).Send (injectDefaults r)] := by
  unfold Create
  dsimp only
  split
  · rfl
  · split_ifs
    · rfl
    · rfl
    · split
      · rfl
      · split_ifs <;> rfl

theorem updateService_log {ρ : Type} (d : Decoders ρ) (t : Transport) (log : List HttpRequest)
    (path : String) (r : ServiceRequest) :
    (updateService d t log path r).log = log ++ [(newPatch path).Send r] := by
  unfold updateService
  dsimp only
  split
  · rfl
  · split_ifs
    · rfl
    · rfl
    · split
      · rfl
      · split_ifs <;> rfl

theorem lookupKey_append (key : String) (xs ys : List (String × Json)) :
    lookupKey key (xs ++ ys) = (lookupKey key xs).or (lookupKey key ys) := by
  induction xs with
  | nil => simp [lookupKey]
  | cons x xs ih =>
    rcases x with ⟨k, v⟩
    by_cases h : k = key <;> simp [lookupKey, h, ih]

theorem lookupKey_fieldAlways (key k : String) (v : Option String) :
    lookupKey key (fieldAlways k v) = if k = key then some (Json.ofStr v) else none := by
  simp [fieldAlways, lookupKey]

theorem lookupKey_fieldStr (key k : String) (v : Option String) :
    lookupKey key (fieldStr k v) = if k = key then v.map Json.str else none := by
  cases v <;> simp [fieldStr, lookupKey]

theorem lookupKey_fieldInt (key k : String) (v : Option Int) :
    lookupKey key (fieldInt k v) = if k = key then v.map Json.num else none := by
  cases v <;> simp [fieldInt, lookupKey]

theorem lookupKey_fieldTags (key k : String) (tags : List (Option String)) :
    lookupKey key (fieldTags k tags) =
      if k = key ∧ tags ≠ [] then some (Json.arr (tags.map Json.ofStr)) else none := by
  cases tags <;> simp [fieldTags, lookupKey]

theorem Create_request {ρ : Type} (d : Decoders ρ) (t : Transport) (log : List HttpRequest)
    (r : ServiceRequest) :
    (Create d t log r).request = injectDefaults r := by
  unfold Create
  dsimp only
  split
  · rfl
  · split_ifs
    · rfl
    · rfl
    · split
      · rfl
      · split_ifs <;> rfl

/-! ## The claims -/

/-- C1: `Create` issues one POST to the collection path whose payload carries
port, retries and the connect, read and write timeouts equal to the caller's
value where the caller set the field and to 80, 5, 60000, 60000 and 60000
otherwise (also as JSON numbers under their keys), while name, protocol,
host, path, url and tags are the caller's. -/
theorem create_payload_defaults {ρ : Type} (d : Decoders ρ) (t : Transport)
    (log : List HttpRequest) (r : ServiceRequest) :
    ∃ sent : ServiceRequest,
      (Create d t log r).log = log ++ [⟨Method.POST, ServicesPath, none, Payload.service sent⟩] ∧
      sent.Port = some (r.Port.getD 80) ∧
      sent.Retries = some (r.Retries.getD 5) ∧
      sent.ConnectTimeout = some (r.ConnectTimeout.getD 60000) ∧
      sent.ReadTimeout = some (r.ReadTimeout.getD 60000) ∧
      sent.WriteTimeout = some (r.WriteTimeout.getD 60000) ∧
      sent.Name = r.Name ∧ sent.Protocol = r.Protocol ∧ sent.Host = r.Host ∧
      sent.Path = r.Path ∧ sent.Url = r.Url ∧ sent.Tags = r.Tags ∧
      lookupKey "port" sent.toJson = some (Json.num (r.Port.getD 80)) ∧
      lookupKey "retries" sent.toJson = some (Json.num (r.Retries.getD 5)) ∧
      lookupKey "connect_timeout" sent.toJson = some (Json.num (r.ConnectTimeout.getD 60000)) ∧
      lookupKey "read_timeout" sent.toJson = some (Json.num (r.ReadTimeout.getD 60000)) ∧
      lookupKey "write_timeout" sent.toJson = some (Json.num (r.WriteTimeout.getD 60000)) := by
  obtain ⟨h1, h2, h3, h4, h5, h6, h7, h8, h9, h10, h11⟩ := injectDefaults_fields r
  refine ⟨injectDefaults r, Create_log d t log r, h1, h2, h3, h4, h5, h6, h7, h8, h9, h10, h11,
    ?_, ?_, ?_, ?_, ?_⟩ <;>
  · simp only [ServiceRequest.toJson, h1, h2, h3, h4, h5]
    cases (injectDefaults r).Path <;>
      simp [fieldAlways, fieldInt, fieldStr, lookupKey]

/-- C2: when the remote side serves pages `p0 .. pk` to `GetServices`, all
but the last announcing a successor and the last one not, `GetServices`
issues exactly `k + 1` page requests, the first with the caller's offset and
each later one with the offset echoed by the page before it, then stops and
returns, with a nil error, the data of the pages concatenated in page order. -/
theorem getServices_concatenates_pages {ρ : Type} (d : Decoders ρ) (t : Transport)
    (log : List HttpRequest) (query : ServiceQueryString) (init : List Services)
    (last : Services) (fuel : Nat)
    (hserved : Served d t log (normalizeSize query) (init ++ [last]))
    (hmore : ∀ p ∈ init, hasNext p)
    (hlast : last.Next = none ∨ last.Next = some "")
    (hfuel : init.length < fuel) :
    (GetServices d t fuel log query).log =
        log ++ (query.Offset :: init.map (fun p => p.Offset)).map
          (fun o => pageRequest ⟨o, (normalizeSize query).Size⟩) ∧
      (GetServices d t fuel log query).log.length = log.length + (init.length + 1) ∧
      (GetServices d t fuel log query).result =
        some (some ((init ++ [last]).map (fun p => p.Data)).flatten, none) := by
  obtain ⟨n, rfl⟩ : ∃ n, fuel = init.length + (n + 1) := ⟨fuel - init.length - 1, by omega⟩
  obtain ⟨hinit, hl⟩ := (served_append d t init [last] log (normalizeSize query)).mp hserved
  have hrun : GetServices d t (init.length + (n + 1)) log query =
      ⟨log ++ pageRequests (normalizeSize query) init ++
          [pageRequest (queryAfter (normalizeSize query) init)],
        queryAfter (normalizeSize query) init,
        some (some ([] ++ (init.map (fun p => p.Data)).flatten ++ last.Data), none)⟩ := by
    unfold GetServices
    rw [getServicesLoop_served d t init (n + 1) log _ [] hinit hmore,
      getServicesLoop_last d t n _ _ _ last hl hlast]
  have hreqs : pageRequests (normalizeSize query) init ++
      [pageRequest (queryAfter (normalizeSize query) init)] =
      (query.Offset :: init.map (fun p => p.Offset)).map
        (fun o => pageRequest ⟨o, (normalizeSize query).Size⟩) := by
    rw [← normalizeSize_offset query, pageRequests_through]
  rw [hrun]
  refine ⟨?_, ?_, ?_⟩
  · simp only [List.append_assoc, hreqs]
  · simp only [List.append_assoc, hreqs]
    simp
  · simp

/-- C2, on the two sample pages of 100 and 40 elements: two requests, 140
elements, nil error. -/
theorem getServices_concatenates_pages_witness :
    (GetServices sampleDecoders pagedTransport 2 [] ⟨"", 0⟩).log.length = 2 ∧
      (GetServices sampleDecoders pagedTransport 2 [] ⟨"", 0⟩).result.map
        (fun r => (r.1.map List.length, r.2)) = some (some 140, none) := by
  have h := getServices_concatenates_pages sampleDecoders pagedTransport [] ⟨"", 0⟩
    [samplePage0] samplePage1 2
    ⟨⟨200, "page0", by simp [pagedTransport, pageRequest, HttpRequest.Query, normalizeSize],
        by decide, by decide, by simp [sampleDecoders]⟩,
      ⟨200, "page1", by simp [pagedTransport, pageRequest, HttpRequest.Query, samplePage0],
        by decide, by decide, by simp [sampleDecoders]⟩, trivial⟩
    (by
      intro p hp
      rw [List.mem_singleton] at hp
      subst hp
      simp [hasNext, samplePage0])
    (Or.inl rfl) (by decide)
  refine ⟨h.2.1, ?_⟩
  rw [h.2.2]
  simp [samplePage0, samplePage1]

/-- C3: for every page size `s` given to `GetServices`, every page request it
issues (at least one, the first with the caller's offset) is a GET on
`/services/` whose query carries the size 100 when `s < 100`, 1000 when
`s > 1000` and `s` otherwise; that size lies in [100, 1000], 0 becomes 100
and 5000 becomes 1000. -/
theorem getServices_size_normalized {ρ : Type} (d : Decoders ρ) (t : Transport) (fuel : Nat)
    (log : List HttpRequest) (offset : String) (s : Int) :
    (normalizeSize ⟨offset, s⟩).Size =
        (if s < 100 then 100 else if s > 1000 then 1000 else s) ∧
      100 ≤ (normalizeSize ⟨offset, s⟩).Size ∧ (normalizeSize ⟨offset, s⟩).Size ≤ 1000 ∧
      (normalizeSize ⟨offset, 0⟩).Size = 100 ∧ (normalizeSize ⟨offset, 5000⟩).Size = 1000 ∧
      ∃ sent, (GetServices d t (fuel + 1) log ⟨offset, s⟩).log = log ++ sent ∧ sent ≠ [] ∧
        sent.head? = some ⟨Method.GET, "/services/",
          some ⟨offset, if s < 100 then 100 else if s > 1000 then 1000 else s⟩,
          Payload.empty⟩ ∧
        ∀ r ∈ sent,
          r.query.map (fun q => q.Size) =
            some (if s < 100 then 100 else if s > 1000 then 1000 else s) ∧
          (∃ o, r = ⟨Method.GET, "/services/",
            some ⟨o, if s < 100 then 100 else if s > 1000 then 1000 else s⟩,
            Payload.empty⟩) ∧
          ∃ o, r = pageRequest ⟨o, (normalizeSize ⟨offset, s⟩).Size⟩ := by
  have hsize : (normalizeSize ⟨offset, s⟩).Size =
      (if s < 100 then 100 else if s > 1000 then 1000 else s) := by
    unfold normalizeSize
    by_cases h1 : s < 100
    · have : s = 0 ∨ s < 100 := Or.inr h1
      simp [this, h1]
    · have h0 : ¬ s = 0 := by omega
      by_cases h2 : 1000 < s <;> simp [h0, h1, h2]
  refine ⟨hsize, ?_, ?_, by simp [normalizeSize], by simp [normalizeSize], ?_⟩
  · rw [hsize]; split_ifs <;> omega
  · rw [hsize]; split_ifs <;> omega
  · obtain ⟨sent, hlog, hne, hall⟩ :=
      getServicesLoop_log d t (fuel + 1) log (normalizeSize ⟨offset, s⟩) []
    obtain ⟨rest, hfirst⟩ := getServicesLoop_first d t fuel log (normalizeSize ⟨offset, s⟩) []
    have hlog2 : (GetServices d t (fuel + 1) log ⟨offset, s⟩).log = log ++ sent := hlog
    have hsent : sent = pageRequest (normalizeSize ⟨offset, s⟩) :: rest :=
      List.append_cancel_left (hlog.symm.trans hfirst)
    refine ⟨sent, hlog2, hne (by omega), ?_, ?_⟩
    · have hoff : (normalizeSize ⟨offset, s⟩).Offset = offset := normalizeSize_offset ⟨offset, s⟩
      have hreq : pageRequest (normalizeSize ⟨offset, s⟩) =
          ⟨Method.GET, "/services/",
            some ⟨(normalizeSize ⟨offset, s⟩).Offset, (normalizeSize ⟨offset, s⟩).Size⟩,
            Payload.empty⟩ := rfl
      rw [hsent, List.head?_cons, hreq, hoff, hsize]
    · intro r hr
      obtain ⟨o, ho⟩ := hall r hr
      rw [hsize] at ho
      refine ⟨?_, ⟨o, ?_⟩, ⟨o, ?_⟩⟩
      · rw [ho]; rfl
      · rw [ho]; rfl
      · rw [ho, hsize]

/-- C3, on the remote side that serves the two sample pages: asked for size
5000 both requests carry 1000, asked for size 0 both carry 100, asked for
size 250 both carry 250. -/
theorem getServices_size_normalized_witness :
    (GetServices sampleDecoders pagedTransport 2 [] ⟨"", 5000⟩).log =
        [⟨Method.GET, "/services/", some ⟨"", 1000⟩, Payload.empty⟩,
          ⟨Method.GET, "/services/", some ⟨"o1", 1000⟩, Payload.empty⟩] ∧
      (GetServices sampleDecoders pagedTransport 2 [] ⟨"", 0⟩).log =
        [⟨Method.GET, "/services/", some ⟨"", 100⟩, Payload.empty⟩,
          ⟨Method.GET, "/services/", some ⟨"o1", 100⟩, Payload.empty⟩] ∧
      (GetServices sampleDecoders pagedTransport 2 [] ⟨"", 250⟩).log =
        [⟨Method.GET, "/services/", some ⟨"", 250⟩, Payload.empty⟩,
          ⟨Method.GET, "/services/", some ⟨"o1", 250⟩, Payload.empty⟩] ∧
      (∀ r ∈ (GetServices sampleDecoders pagedTransport 2 [] ⟨"", 5000⟩).log,
        r.query.map (fun q => q.Size) = some 1000) ∧
      (∀ r ∈ (GetServices sampleDecoders pagedTransport 2 [] ⟨"", -7⟩).log,
        r.query.map (fun q => q.Size) = some 100) := by
  refine ⟨by decide, by decide, by decide, ?_, ?_⟩
  · obtain ⟨sent, hlog, _, _, hall⟩ :=
      (getServices_size_normalized sampleDecoders pagedTransport 1 [] "" 5000).2.2.2.2.2
    intro r hr
    rw [hlog, List.nil_append] at hr
    exact (hall r hr).1
  · obtain ⟨sent, hlog, _, _, hall⟩ :=
      (getServices_size_normalized sampleDecoders pagedTransport 1 [] "" (-7)).2.2.2.2.2
    intro r hr
    rw [hlog, List.nil_append] at hr
    exact (hall r hr).1

/-- C4: when the transport call succeeds with status 401 or 403 and body `b`,
each of the fourteen operations of the service client (`GetServices` on its
first page or on any later one) returns a nil value, where it has one, and
the error "not authorised, message from kong: " followed by `b`. -/
theorem unauthorised_everywhere {ρ : Type} (d : Decoders ρ) (t : Transport)
    (log : List HttpRequest) (status : Int) (b : String)
    (hs : status = 401 ∨ status = 403) :
    (∀ r, t log ((newPost ServicesPath).Send (injectDefaults r)) = Exchange.done status b →
      (Create d t log r).value = none ∧
      (Create d t log r).err = some ("not authorised, message from kong: " ++ b)) ∧
    (∀ id, t log (newGet (ServicesPath ++ id)) = Exchange.done status b →
      (GetServiceById d t log id).value = none ∧
      (GetServiceById d t log id).err = some ("not authorised, message from kong: " ++ b)) ∧
    (∀ name, t log (newGet (ServicesPath ++ name)) = Exchange.done status b →
      (GetServiceByName d t log name).value = none ∧
      (GetServiceByName d t log name).err = some ("not authorised, message from kong: " ++ b)) ∧
    (∀ id, t log (newGet ("/routes/" ++ id ++ "/service")) = Exchange.done status b →
      (GetServiceFromRouteId d t log id).value = none ∧
      (GetServiceFromRouteId d t log id).err =
        some ("not authorised, message from kong: " ++ b)) ∧
    (∀ query init fuel, Served d t log (normalizeSize query) init →
      (∀ p ∈ init, hasNext p) → init.length < fuel →
      t (log ++ pageRequests (normalizeSize query) init)
        (pageRequest (queryAfter (normalizeSize query) init)) = Exchange.done status b →
      (GetServices d t fuel log query).result =
        some (none, some ("not authorised, message from kong: " ++ b))) ∧
    (∀ id r, t log ((newPatch (ServicesPath ++ id)).Send r) = Exchange.done status b →
      (UpdateServiceById d t log id r).value = none ∧
      (UpdateServiceById d t log id r).err =
        some ("not authorised, message from kong: " ++ b)) ∧
    (∀ name r, t log ((newPatch (ServicesPath ++ name)).Send r) = Exchange.done status b →
      (UpdateServiceByName d t log name r).value = none ∧
      (UpdateServiceByName d t log name r).err =
        some ("not authorised, message from kong: " ++ b)) ∧
    (∀ id r, t log ((newPatch ("/routes/" ++ id ++ "/service")).Send r) =
        Exchange.done status b →
      (UpdateServicebyRouteId d t log id r).value = none ∧
      (UpdateServicebyRouteId d t log id r).err =
        some ("not authorised, message from kong: " ++ b)) ∧
    (∀ id, t log (newDelete (ServicesPath ++ id)) = Exchange.done status b →
      (DeleteServiceById t log id).err = some ("not authorised, message from kong: " ++ b)) ∧
    (∀ name, t log (newDelete (ServicesPath ++ name)) = Exchange.done status b →
      (DeleteServiceByName t log name).err =
        some ("not authorised, message from kong: " ++ b)) ∧
    (∀ serviceId pluginName cfg,
      t log ((newPost (ServicesPath ++ serviceId ++ "/" ++ pluginName)).SendRaw cfg) =
        Exchange.done status b →
      (CreatePluginConfig d t log serviceId pluginName cfg).value = none ∧
      (CreatePluginConfig d t log serviceId pluginName cfg).err =
        some ("not authorised, message from kong: " ++ b)) ∧
    (∀ serviceId pluginName id,
      t log (newGet (ServicesPath ++ serviceId ++ "/" ++ pluginName ++ "/" ++ id)) =
        Exchange.done status b →
      (GetPluginConfig d t log serviceId pluginName id).value = none ∧
      (GetPluginConfig d t log serviceId pluginName id).err =
        some ("not authorised, message from kong: " ++ b)) ∧
    (∀ serviceId pluginName,
      t log (newGet (ServicesPath ++ serviceId ++ "/" ++ pluginName)) =
        Exchange.done status b →
      (GetPluginConfigs d t log serviceId pluginName).value = none ∧
      (GetPluginConfigs d t log serviceId pluginName).err =
        some ("not authorised, message from kong: " ++ b)) ∧
    (∀ serviceId pluginName id,
      t log (newDelete (ServicesPath ++ serviceId ++ "/" ++ pluginName ++ "/" ++ id)) =
        Exchange.done status b →
      (DeletePluginConfig t log serviceId pluginName id).err =
        some ("not authorised, message from kong: " ++ b)) := by
  have h400 : status ≠ 400 := by rcases hs with h | h <;> omega
  refine ⟨?_, ?_, ?_, ?_, ?_, ?_, ?_, ?_, ?_, ?_, ?_, ?_, ?_, ?_⟩
  · intro r ht
    simp [Create, ht, hs]
  · intro id ht
    simp [GetServiceById, getService, ht, hs]
  · intro name ht
    simp [GetServiceByName, GetServiceById, getService, ht, hs]
  · intro id ht
    simp [GetServiceFromRouteId, getService, ht, hs]
  · intro query init fuel hserved hmore hfuel ht
    obtain ⟨n, rfl⟩ : ∃ n, fuel = init.length + (n + 1) := ⟨fuel - init.length - 1, by omega⟩
    unfold GetServices
    rw [getServicesLoop_served d t init (n + 1) log _ [] hserved hmore,
      getServicesLoop_unauthorised d t n _ _ _ status b hs ht]
  · intro id r ht
    simp [UpdateServiceById, updateService, ht, hs]
  · intro name r ht
    simp [UpdateServiceByName, UpdateServiceById, updateService, ht, hs]
  · intro id r ht
    simp [UpdateServicebyRouteId, updateService, ht, hs]
  · intro id ht
    simp [DeleteServiceById, ht, hs, h400]
  · intro name ht
    simp [DeleteServiceByName, DeleteServiceById, ht, hs, h400]
  · intro serviceId pluginName cfg ht
    simp [CreatePluginConfig, ht, hs]
  · intro serviceId pluginName id ht
    simp [GetPluginConfig, ht, hs]
  · intro serviceId pluginName ht
    simp [GetPluginConfigs, ht, hs]
  · intro serviceId pluginName id ht
    simp [DeletePluginConfig, ht, hs]

/-- C4, on a remote side that answers 401 with body `denied`, and for
`GetServices` also on one that answers 403 after a first page. -/
theorem unauthorised_everywhere_witness :
    (Create sampleDecoders (constTransport 401 "denied") [] sampleRequest).value = none ∧
      (Create sampleDecoders (constTransport 401 "denied") [] sampleRequest).err =
        some ("not authorised, message from kong: " ++ "denied") ∧
      (GetServices sampleDecoders (constTransport 401 "denied") 1 [] ⟨"", 0⟩).result =
        some (none, some ("not authorised, message from kong: " ++ "denied")) ∧
      (DeletePluginConfig (constTransport 401 "denied") [] "abc" "jwt" "id").err =
        some ("not authorised, message from kong: " ++ "denied") := by
  have h := unauthorised_everywhere sampleDecoders (constTransport 401 "denied") [] 401
    "denied" (Or.inl rfl)
  exact ⟨(h.1 sampleRequest rfl).1, (h.1 sampleRequest rfl).2,
    h.2.2.2.2.1 ⟨"", 0⟩ [] 1 trivial (by simp) (by decide) rfl,
    h.2.2.2.2.2.2.2.2.2.2.2.2.2 "abc" "jwt" "id" rfl⟩

/-- C5: a single-item fetch (`GetServiceById`, `GetServiceByName`,
`GetServiceFromRouteId`, `GetPluginConfig`) answered with a status other than
401 and 403, so in particular 200, and a body that decodes to a value without
identifier returns `(nil, nil)`; and a value a fetch returns always has its
identifier present. -/
theorem fetch_soft_not_found {ρ : Type} (d : Decoders ρ) (t : Transport)
    (log : List HttpRequest) :
    (∀ id status body svc, t log (newGet (ServicesPath ++ id)) = Exchange.done status body →
      status ≠ 401 → status ≠ 403 → d.service body = Except.ok svc → svc.Id = none →
      (GetServiceById d t log id).value = none ∧ (GetServiceById d t log id).err = none ∧
      (GetServiceByName d t log id).value = none ∧ (GetServiceByName d t log id).err = none) ∧
    (∀ id status body svc,
      t log (newGet ("/routes/" ++ id ++ "/service")) = Exchange.done status body →
      status ≠ 401 → status ≠ 403 → d.service body = Except.ok svc → svc.Id = none →
      (GetServiceFromRouteId d t log id).value = none ∧
      (GetServiceFromRouteId d t log id).err = none) ∧
    (∀ serviceId pluginName id status body cfg,
      t log (newGet (ServicesPath ++ serviceId ++ "/" ++ pluginName ++ "/" ++ id)) =
        Exchange.done status body →
      status ≠ 401 → status ≠ 403 → d.pluginConfig body = Except.ok cfg → cfg.Id = "" →
      (GetPluginConfig d t log serviceId pluginName id).value = none ∧
      (GetPluginConfig d t log serviceId pluginName id).err = none) ∧
    (∀ id svc, (GetServiceById d t log id).value = some svc → svc.Id ≠ none) ∧
    (∀ name svc, (GetServiceByName d t log name).value = some svc → svc.Id ≠ none) ∧
    (∀ id svc, (GetServiceFromRouteId d t log id).value = some svc → svc.Id ≠ none) ∧
    (∀ serviceId pluginName id cfg,
      (GetPluginConfig d t log serviceId pluginName id).value = some cfg → cfg.Id ≠ "") := by
  have hget : ∀ endpoint svc, (getService d t log endpoint).value = some svc → svc.Id ≠ none := by
    intro endpoint svc
    unfold getService
    dsimp only
    split
    · simp
    · split_ifs
      · simp
      · split
        · simp
        · split_ifs with hid
          · simp
          · intro h
            simp only [Option.some.injEq] at h
            rw [← h]
            exact hid
  refine ⟨?_, ?_, ?_, ?_, ?_, ?_, ?_⟩
  · intro id status body svc ht h401 h403 hd hid
    simp [GetServiceByName, GetServiceById, getService, ht, h401, h403, hd, hid]
  · intro id status body svc ht h401 h403 hd hid
    simp [GetServiceFromRouteId, getService, ht, h401, h403, hd, hid]
  · intro serviceId pluginName id status body cfg ht h401 h403 hd hid
    simp [GetPluginConfig, ht, h401, h403, hd, hid]
  · intro id svc
    exact hget _ svc
  · intro name svc
    exact hget _ svc
  · intro id svc
    exact hget _ svc
  · intro serviceId pluginName id cfg
    unfold GetPluginConfig
    dsimp only
    split
    · simp
    · split_ifs
      · simp
      · split
        · simp
        · split_ifs with hid
          · simp
          · intro h
            simp only [Option.some.injEq] at h
            rw [← h]
            exact hid

/-- C5, on a remote side that answers 200 with a body lacking an identifier,
and on one that answers with a service. -/
theorem fetch_soft_not_found_witness :
    (GetServiceById sampleDecoders (constTransport 200 "\x7b\x7d") [] "abc").value = none ∧
      (GetServiceById sampleDecoders (constTransport 200 "\x7b\x7d") [] "abc").err = none ∧
      (GetPluginConfig sampleDecoders (constTransport 200 "\x7b\x7d") [] "abc" "jwt" "id").value = none ∧
      (GetPluginConfig sampleDecoders (constTransport 200 "\x7b\x7d") [] "abc" "jwt" "id").err = none ∧
      (GetServiceById sampleDecoders (constTransport 200 "svc") [] "abc").value =
        some sampleService ∧
      sampleService.Id ≠ none := by
  have h := fetch_soft_not_found sampleDecoders (constTransport 200 "\x7b\x7d") []
  have h1 := h.1 "abc" 200 "\x7b\x7d" { sampleService with Id := none } rfl (by decide) (by decide)
    (by simp [sampleDecoders]) rfl
  have h2 := h.2.2.1 "abc" "jwt" "id" 200 "\x7b\x7d" ⟨"", ""⟩ rfl (by decide) (by decide)
    (by simp [sampleDecoders]) rfl
  have hv : (GetServiceById sampleDecoders (constTransport 200 "svc") [] "abc").value =
      some sampleService := by
    simp [GetServiceById, getService, constTransport, sampleDecoders, sampleService]
  exact ⟨h1.1, h1.2.1, h2.1, h2.2, hv,
    (fetch_soft_not_found sampleDecoders (constTransport 200 "svc") []).2.2.2.1 "abc"
      sampleService hv⟩

/-- C6: when `DeleteServiceById` or `DeleteServiceByName` receives status 400
with body `b`, the error it returns reads exactly
"bad request, message from kong: " followed by `b`. -/
theorem delete_bad_request (t : Transport) (log : List HttpRequest) (id b : String)
    (ht : t log (newDelete (ServicesPath ++ id)) = Exchange.done 400 b) :
    (DeleteServiceById t log id).err = some ("bad request, message from kong: " ++ b) ∧
      (DeleteServiceByName t log id).err = some ("bad request, message from kong: " ++ b) := by
  simp [DeleteServiceByName, DeleteServiceById, ht]

/-- C6, on the foreign key violation body of the test suite. -/
theorem delete_bad_request_witness :
    (DeleteServiceById
        (constTransport 400 "\x7b\"message\":\"an existing 'routes' entity references this 'services' entity\",\"name\":\"foreign key violation\",\"fields\":\x7b\"@referenced_by\":\"routes\"\x7d,\"code\":4\x7d")
        [] "abc").err =
      some ("bad request, message from kong: " ++
        "\x7b\"message\":\"an existing 'routes' entity references this 'services' entity\",\"name\":\"foreign key violation\",\"fields\":\x7b\"@referenced_by\":\"routes\"\x7d,\"code\":4\x7d") :=
  (delete_bad_request (constTransport 400 _) [] "abc" _ rfl).1

/-- C7: when `Create`, `UpdateServiceById`, `UpdateServiceByName` or
`UpdateServicebyRouteId` receives status 400 with body `b`, it returns a nil
service and the error "bad request, message from kong: " followed by `b`. -/
theorem write_bad_request {ρ : Type} (d : Decoders ρ) (t : Transport)
    (log : List HttpRequest) (b : String) :
    (∀ r, t log ((newPost ServicesPath).Send (injectDefaults r)) = Exchange.done 400 b →
      (Create d t log r).value = none ∧
      (Create d t log r).err = some ("bad request, message from kong: " ++ b)) ∧
    (∀ id r, t log ((newPatch (ServicesPath ++ id)).Send r) = Exchange.done 400 b →
      (UpdateServiceById d t log id r).value = none ∧
      (UpdateServiceById d t log id r).err = some ("bad request, message from kong: " ++ b) ∧
      (UpdateServiceByName d t log id r).value = none ∧
      (UpdateServiceByName d t log id r).err =
        some ("bad request, message from kong: " ++ b)) ∧
    (∀ id r, t log ((newPatch ("/routes/" ++ id ++ "/service")).Send r) = Exchange.done 400 b →
      (UpdateServicebyRouteId d t log id r).value = none ∧
      (UpdateServicebyRouteId d t log id r).err =
        some ("bad request, message from kong: " ++ b)) := by
  refine ⟨?_, ?_, ?_⟩
  · intro r ht
    simp [Create, ht]
  · intro id r ht
    simp [UpdateServiceByName, UpdateServiceById, updateService, ht]
  · intro id r ht
    simp [UpdateServicebyRouteId, updateService, ht]

/-- C7, on a remote side that answers 400 with a schema violation text. -/
theorem write_bad_request_witness :
    (Create sampleDecoders (constTransport 400 "schema violation (host: required field missing)")
        [] sampleRequest).value = none ∧
      (Create sampleDecoders (constTransport 400 "schema violation (host: required field missing)")
        [] sampleRequest).err =
        some ("bad request, message from kong: " ++
          "schema violation (host: required field missing)") ∧
      (UpdateServiceById sampleDecoders
        (constTransport 400 "schema violation (host: required field missing)")
        [] "abc" hostOnlyRequest).err =
        some ("bad request, message from kong: " ++
          "schema violation (host: required field missing)") := by
  have h := write_bad_request sampleDecoders
    (constTransport 400 "schema violation (host: required field missing)") []
    "schema violation (host: required field missing)"
  exact ⟨(h.1 sampleRequest rfl).1, (h.1 sampleRequest rfl).2,
    (h.2.1 "abc" hostOnlyRequest rfl).2.1⟩

/-- C8, as the code has it: `Create` sends the request after default
injection and every update sends the request as given; the JSON object of a
sent request always has the keys `name`, `protocol` and `host`, with the
value null when the field is absent; it has each of `port`, `path`,
`retries`, `connect_timeout`, `write_timeout`, `read_timeout` and `url`
exactly when the field is present, with the field's value and never null;
and it has `tags` exactly when the tag list is non-empty. -/
theorem payload_keys {ρ : Type} (d : Decoders ρ) (t : Transport) (log : List HttpRequest)
    (r : ServiceRequest) :
    (Create d t log r).log =
        log ++ [⟨Method.POST, ServicesPath, none, Payload.service (injectDefaults r)⟩] ∧
    (∀ id, (UpdateServiceById d t log id r).log =
        log ++ [⟨Method.PATCH, ServicesPath ++ id, none, Payload.service r⟩]) ∧
    (∀ name, (UpdateServiceByName d t log name r).log =
        log ++ [⟨Method.PATCH, ServicesPath ++ name, none, Payload.service r⟩]) ∧
    (∀ id, (UpdateServicebyRouteId d t log id r).log =
        log ++ [⟨Method.PATCH, "/routes/" ++ id ++ "/service", none, Payload.service r⟩]) ∧
    lookupKey "name" r.toJson = some (Json.ofStr r.Name) ∧
    lookupKey "protocol" r.toJson = some (Json.ofStr r.Protocol) ∧
    lookupKey "host" r.toJson = some (Json.ofStr r.Host) ∧
    lookupKey "port" r.toJson = r.Port.map Json.num ∧
    lookupKey "path" r.toJson = r.Path.map Json.str ∧
    lookupKey "retries" r.toJson = r.Retries.map Json.num ∧
    lookupKey "connect_timeout" r.toJson = r.ConnectTimeout.map Json.num ∧
    lookupKey "write_timeout" r.toJson = r.WriteTimeout.map Json.num ∧
    lookupKey "read_timeout" r.toJson = r.ReadTimeout.map Json.num ∧
    lookupKey "url" r.toJson = r.Url.map Json.str ∧
    lookupKey "tags" r.toJson =
      (if r.Tags = [] then none else some (Json.arr (r.Tags.map Json.ofStr))) ∧
    (∀ key ∈ ["port", "path", "retries", "connect_timeout", "write_timeout", "read_timeout",
        "url", "tags"], lookupKey key r.toJson ≠ some Json.null) := by
  have hport : lookupKey "port" r.toJson = r.Port.map Json.num := by
    simp [ServiceRequest.toJson, lookupKey_append, lookupKey_fieldAlways, lookupKey_fieldStr,
      lookupKey_fieldInt, lookupKey_fieldTags]
  have hpath : lookupKey "path" r.toJson = r.Path.map Json.str := by
    simp [ServiceRequest.toJson, lookupKey_append, lookupKey_fieldAlways, lookupKey_fieldStr,
      lookupKey_fieldInt, lookupKey_fieldTags]
  have hretries : lookupKey "retries" r.toJson = r.Retries.map Json.num := by
    simp [ServiceRequest.toJson, lookupKey_append, lookupKey_fieldAlways, lookupKey_fieldStr,
      lookupKey_fieldInt, lookupKey_fieldTags]
  have hconnect : lookupKey "connect_timeout" r.toJson = r.ConnectTimeout.map Json.num := by
    simp [ServiceRequest.toJson, lookupKey_append, lookupKey_fieldAlways, lookupKey_fieldStr,
      lookupKey_fieldInt, lookupKey_fieldTags]
  have hwrite : lookupKey "write_timeout" r.toJson = r.WriteTimeout.map Json.num := by
    simp [ServiceRequest.toJson, lookupKey_append, lookupKey_fieldAlways, lookupKey_fieldStr,
      lookupKey_fieldInt, lookupKey_fieldTags]
  have hread : lookupKey "read_timeout" r.toJson = r.ReadTimeout.map Json.num := by
    simp [ServiceRequest.toJson, lookupKey_append, lookupKey_fieldAlways, lookupKey_fieldStr,
      lookupKey_fieldInt, lookupKey_fieldTags]
  have hurl : lookupKey "url" r.toJson = r.Url.map Json.str := by
    simp [ServiceRequest.toJson, lookupKey_append, lookupKey_fieldAlways, lookupKey_fieldStr,
      lookupKey_fieldInt, lookupKey_fieldTags]
  have htags : lookupKey "tags" r.toJson =
      (if r.Tags = [] then none else some (Json.arr (r.Tags.map Json.ofStr))) := by
    by_cases h : r.Tags = [] <;>
      simp [ServiceRequest.toJson, lookupKey_append, lookupKey_fieldAlways, lookupKey_fieldStr,
        lookupKey_fieldInt, lookupKey_fieldTags, h]
  refine ⟨Create_log d t log r, fun id => updateService_log d t log _ r,
    fun name => updateService_log d t log _ r, fun id => updateService_log d t log _ r,
    ?_, ?_, ?_, hport, hpath, hretries, hconnect, hwrite, hread, hurl, htags, ?_⟩
  · simp [ServiceRequest.toJson, lookupKey_append, lookupKey_fieldAlways]
  · simp [ServiceRequest.toJson, lookupKey_append, lookupKey_fieldAlways]
  · simp [ServiceRequest.toJson, lookupKey_append, lookupKey_fieldAlways]
  · intro key hkey
    simp only [List.mem_cons, List.mem_singleton, List.not_mem_nil, or_false] at hkey
    rcases hkey with h | h | h | h | h | h | h | h <;> subst h
    · rw [hport]; cases r.Port <;> simp
    · rw [hpath]; cases r.Path <;> simp
    · rw [hretries]; cases r.Retries <;> simp
    · rw [hconnect]; cases r.ConnectTimeout <;> simp
    · rw [hwrite]; cases r.WriteTimeout <;> simp
    · rw [hread]; cases r.ReadTimeout <;> simp
    · rw [hurl]; cases r.Url <;> simp
    · rw [htags]; split_ifs <;> simp

/-- C8 fails as stated: `UpdateServiceById` with a request that sets only the
host sends that request, whose JSON object has the keys `name` and
`protocol`, both absent in the request, each with the value null. -/
theorem payload_keys_counterexample :
    (UpdateServiceById sampleDecoders (constTransport 200 "svc") [] "abc" hostOnlyRequest).log =
        [⟨Method.PATCH, "/services/abc", none, Payload.service hostOnlyRequest⟩] ∧
      hostOnlyRequest.Name = none ∧
      lookupKey "name" hostOnlyRequest.toJson = some Json.null ∧
      hostOnlyRequest.Protocol = none ∧
      lookupKey "protocol" hostOnlyRequest.toJson = some Json.null :=
  ⟨by decide, rfl, rfl, rfl, rfl⟩

/-- C9: when the pages before it were served and each announced a successor
(none at all for a failure on the first page), and the next page fetch fails
by a transport error, a status 401 or 403, or a body that does not decode,
`GetServices` issues that request as its last one and returns a nil sequence
with a non-nil error, whatever was accumulated. -/
theorem getServices_aborts_on_failure {ρ : Type} (d : Decoders ρ) (t : Transport)
    (log : List HttpRequest) (query : ServiceQueryString) (init : List Services) (fuel : Nat)
    (hserved : Served d t log (normalizeSize query) init)
    (hmore : ∀ p ∈ init, hasNext p)
    (hfail : pageFails d (t (log ++ pageRequests (normalizeSize query) init)
      (pageRequest (queryAfter (normalizeSize query) init))))
    (hfuel : init.length < fuel) :
    (GetServices d t fuel log query).log =
        log ++ (query.Offset :: init.map (fun p => p.Offset)).map
          (fun o => pageRequest ⟨o, (normalizeSize query).Size⟩) ∧
      (GetServices d t fuel log query).log.length = log.length + (init.length + 1) ∧
      ∃ e, (GetServices d t fuel log query).result = some (none, some e) := by
  obtain ⟨n, rfl⟩ : ∃ n, fuel = init.length + (n + 1) := ⟨fuel - init.length - 1, by omega⟩
  obtain ⟨e, he⟩ := getServicesLoop_fail d t n _ _
    ([] ++ (init.map (fun p => p.Data)).flatten) hfail
  have hrun : GetServices d t (init.length + (n + 1)) log query =
      ⟨log ++ pageRequests (normalizeSize query) init ++
          [pageRequest (queryAfter (normalizeSize query) init)],
        queryAfter (normalizeSize query) init, some (none, some e)⟩ := by
    unfold GetServices
    rw [getServicesLoop_served d t init (n + 1) log _ [] hserved hmore, he]
  have hreqs : pageRequests (normalizeSize query) init ++
      [pageRequest (queryAfter (normalizeSize query) init)] =
      (query.Offset :: init.map (fun p => p.Offset)).map
        (fun o => pageRequest ⟨o, (normalizeSize query).Size⟩) := by
    rw [← normalizeSize_offset query, pageRequests_through]
  rw [hrun]
  refine ⟨?_, ?_, e, rfl⟩
  · simp only [List.append_assoc, hreqs]
  · simp only [List.append_assoc, hreqs]
    simp

/-- C9, on a remote side that serves the first sample page and then a body
that does not decode: two requests, nil sequence, an error. -/
theorem getServices_aborts_on_failure_witness :
    (GetServices sampleDecoders (failingTransport (Exchange.done 200 "garbage")) 5 []
        ⟨"", 0⟩).log.length = 2 ∧
      ∃ e, (GetServices sampleDecoders (failingTransport (Exchange.done 200 "garbage")) 5 []
        ⟨"", 0⟩).result = some (none, some e) := by
  have h := getServices_aborts_on_failure sampleDecoders
    (failingTransport (Exchange.done 200 "garbage")) [] ⟨"", 0⟩ [samplePage0] 5
    ⟨⟨200, "page0", rfl, by decide, by decide, by simp [sampleDecoders]⟩, trivial⟩
    (by
      intro p hp
      rw [List.mem_singleton] at hp
      subst hp
      simp [hasNext, samplePage0])
    (by
      have hx : failingTransport (Exchange.done 200 "garbage")
          ([] ++ pageRequests (normalizeSize ⟨"", 0⟩) [samplePage0])
          (pageRequest (queryAfter (normalizeSize ⟨"", 0⟩) [samplePage0])) =
          Exchange.done 200 "garbage" := rfl
      rw [hx]
      exact Or.inr (Or.inr ⟨"invalid character", by simp [sampleDecoders]⟩))
    (by decide)
  exact ⟨h.2.1, h.2.2⟩

/-- C10: when `Create` or an update operation receives a status other than
400, 401 and 403 with a body `b` that decodes to a service without
identifier, it returns a nil service and the error
"could not register the service, error: " followed by `b` for `Create`,
"could not update service, error: " followed by `b` for the updates; and a
service these operations return always has its identifier present. -/
theorem write_requires_identifier {ρ : Type} (d : Decoders ρ) (t : Transport)
    (log : List HttpRequest) :
    (∀ r status b svc,
      t log ((newPost ServicesPath).Send (injectDefaults r)) = Exchange.done status b →
      status ≠ 400 → status ≠ 401 → status ≠ 403 →
      d.service b = Except.ok svc → svc.Id = none →
      (Create d t log r).value = none ∧
      (Create d t log r).err = some ("could not register the service, error: " ++ b)) ∧
    (∀ id r status b svc,
      t log ((newPatch (ServicesPath ++ id)).Send r) = Exchange.done status b →
      status ≠ 400 → status ≠ 401 → status ≠ 403 →
      d.service b = Except.ok svc → svc.Id = none →
      (UpdateServiceById d t log id r).value = none ∧
      (UpdateServiceById d t log id r).err = some ("could not update service, error: " ++ b) ∧
      (UpdateServiceByName d t log id r).value = none ∧
      (UpdateServiceByName d t log id r).err =
        some ("could not update service, error: " ++ b)) ∧
    (∀ id r status b svc,
      t log ((newPatch ("/routes/" ++ id ++ "/service")).Send r) = Exchange.done status b →
      status ≠ 400 → status ≠ 401 → status ≠ 403 →
      d.service b = Except.ok svc → svc.Id = none →
      (UpdateServicebyRouteId d t log id r).value = none ∧
      (UpdateServicebyRouteId d t log id r).err =
        some ("could not update service, error: " ++ b)) ∧
    (∀ r s, (Create d t log r).value = some s → s.Id ≠ none) ∧
    (∀ id r s, (UpdateServiceById d t log id r).value = some s → s.Id ≠ none) ∧
    (∀ name r s, (UpdateServiceByName d t log name r).value = some s → s.Id ≠ none) ∧
    (∀ id r s, (UpdateServicebyRouteId d t log id r).value = some s → s.Id ≠ none) := by
  have hupd : ∀ path r s, (updateService d t log path r).value = some s → s.Id ≠ none := by
    intro path r s
    unfold updateService
    dsimp only
    split
    · simp
    · split_ifs
      · simp
      · simp
      · split
        · simp
        · split_ifs with hi
          · simp
          · intro h
            simp only [Option.some.injEq] at h
            rw [← h]
            exact hi
  refine ⟨?_, ?_, ?_, ?_, ?_, ?_, ?_⟩
  · intro r status b svc ht h400 h401 h403 hd hid
    simp [Create, ht, h400, h401, h403, hd, hid]
  · intro id r status b svc ht h400 h401 h403 hd hid
    simp [UpdateServiceByName, UpdateServiceById, updateService, ht, h400, h401, h403, hd, hid]
  · intro id r status b svc ht h400 h401 h403 hd hid
    simp [UpdateServicebyRouteId, updateService, ht, h400, h401, h403, hd, hid]
  · intro r s
    unfold Create
    dsimp only
    split
    · simp
    · split_ifs
      · simp
      · simp
      · split
        · simp
        · split_ifs with hi
          · simp
          · intro h
            simp only [Option.some.injEq] at h
            rw [← h]
            exact hi
  · intro id r s
    exact hupd _ r s
  · intro name r s
    exact hupd _ r s
  · intro id r s
    exact hupd _ r s

/-- C10, on a remote side that answers 200 with a body lacking an identifier. -/
theorem write_requires_identifier_witness :
    (Create sampleDecoders (constTransport 200 "\x7b\x7d") [] sampleRequest).value = none ∧
      (Create sampleDecoders (constTransport 200 "\x7b\x7d") [] sampleRequest).err =
        some ("could not register the service, error: " ++ "\x7b\x7d") ∧
      (UpdateServiceById sampleDecoders (constTransport 200 "\x7b\x7d") [] "abc"
        hostOnlyRequest).err = some ("could not update service, error: " ++ "\x7b\x7d") := by
  have h := write_requires_identifier sampleDecoders (constTransport 200 "\x7b\x7d") []
  have hd : sampleDecoders.service "\x7b\x7d" = Except.ok { sampleService with Id := none } := by
    simp [sampleDecoders]
  have h1 := h.1 sampleRequest 200 "\x7b\x7d" _ rfl (by decide) (by decide) (by decide) hd rfl
  have h2 := h.2.1 "abc" hostOnlyRequest 200 "\x7b\x7d" _ rfl (by decide) (by decide)
    (by decide) hd rfl
  exact ⟨h1.1, h1.2, h2.2.1⟩

/-- C11: `GetPluginConfigs` issues one request and never returns a non-nil
empty sequence; when the call is answered with a status other than 401 and
403 and the body decodes, an empty `data` gives `(nil, nil)` and a non-empty
`data` gives exactly its elements, in order, with a nil error. -/
theorem getPluginConfigs_never_empty {ρ : Type} (d : Decoders ρ) (t : Transport)
    (log : List HttpRequest) (serviceId pluginName : String) :
    (GetPluginConfigs d t log serviceId pluginName).value ≠ some [] ∧
    (GetPluginConfigs d t log serviceId pluginName).log =
      log ++ [newGet (ServicesPath ++ serviceId ++ "/" ++ pluginName)] ∧
    (∀ status body cfgs,
      t log (newGet (ServicesPath ++ serviceId ++ "/" ++ pluginName)) =
        Exchange.done status body →
      status ≠ 401 → status ≠ 403 → d.pluginConfigs body = Except.ok cfgs →
      (cfgs.Data = [] →
        (GetPluginConfigs d t log serviceId pluginName).value = none ∧
        (GetPluginConfigs d t log serviceId pluginName).err = none) ∧
      (cfgs.Data ≠ [] →
        (GetPluginConfigs d t log serviceId pluginName).value = some cfgs.Data ∧
        (GetPluginConfigs d t log serviceId pluginName).err = none)) := by
  refine ⟨?_, ?_, ?_⟩
  · unfold GetPluginConfigs
    dsimp only
    split
    · simp
    · split_ifs
      · simp
      · split
        · simp
        · split_ifs with hlen
          · simp
          · intro h
            simp only [Option.some.injEq] at h
            rw [h] at hlen
            exact hlen rfl
  · unfold GetPluginConfigs
    dsimp only
    split
    · rfl
    · split_ifs
      · rfl
      · split
        · rfl
        · split_ifs <;> rfl
  · intro status body cfgs ht h401 h403 hd
    constructor
    · intro hdata
      simp [GetPluginConfigs, ht, h401, h403, hd, hdata]
    · intro hdata
      simp [GetPluginConfigs, ht, h401, h403, hd, hdata]

/-- C11, on a remote side that answers 200 with an empty collection, and on
one that answers with two records. -/
theorem getPluginConfigs_never_empty_witness :
    (GetPluginConfigs sampleConfigDecoders (constTransport 200 "none") [] "abc" "jwt").value =
        none ∧
      (GetPluginConfigs sampleConfigDecoders (constTransport 200 "none") [] "abc" "jwt").err =
        none ∧
      (GetPluginConfigs sampleConfigDecoders (constTransport 200 "two") [] "abc" "jwt").value =
        some [[("key", "a36c")], [("key", "b325")]] ∧
      (GetPluginConfigs sampleConfigDecoders (constTransport 200 "two") [] "abc" "jwt").err =
        none := by
  have h0 := ((getPluginConfigs_never_empty sampleConfigDecoders (constTransport 200 "none") []
    "abc" "jwt").2.2 200 "none" ⟨[], "", ""⟩ rfl (by decide) (by decide)
    (by simp [sampleConfigDecoders])).1 rfl
  have h2 := ((getPluginConfigs_never_empty sampleConfigDecoders (constTransport 200 "two") []
    "abc" "jwt").2.2 200 "two" ⟨[[("key", "a36c")], [("key", "b325")]], "", ""⟩ rfl
    (by decide) (by decide) (by simp [sampleConfigDecoders])).2 (by simp)
  exact ⟨h0.1, h0.2, h2.1, h2.2⟩

/-- C12: a plugin config `CreatePluginConfig` returns carries the non-empty
identifier decoded from the response and, as `Body`, the raw response body;
a response with a status other than 401 and 403 whose decoded identifier is
non-empty is returned so with a nil error, and one whose decoded identifier
is empty gives nil and the error
"could not create service plugin config, error: " followed by the raw body. -/
theorem createPluginConfig_keeps_body {ρ : Type} (d : Decoders ρ) (t : Transport)
    (log : List HttpRequest) (serviceId pluginName pluginConfig : String) :
    (∀ c, (CreatePluginConfig d t log serviceId pluginName pluginConfig).value = some c →
      c.Id ≠ "" ∧
      ∃ status body decoded,
        t log ((newPost (ServicesPath ++ serviceId ++ "/" ++ pluginName)).SendRaw pluginConfig) =
          Exchange.done status body ∧
        d.pluginConfig body = Except.ok decoded ∧ c.Id = decoded.Id ∧ c.Body = body) ∧
    (∀ status body decoded,
      t log ((newPost (ServicesPath ++ serviceId ++ "/" ++ pluginName)).SendRaw pluginConfig) =
        Exchange.done status body →
      status ≠ 401 → status ≠ 403 → d.pluginConfig body = Except.ok decoded →
      (decoded.Id ≠ "" →
        (CreatePluginConfig d t log serviceId pluginName pluginConfig).value =
          some ⟨decoded.Id, body⟩ ∧
        (CreatePluginConfig d t log serviceId pluginName pluginConfig).err = none) ∧
      (decoded.Id = "" →
        (CreatePluginConfig d t log serviceId pluginName pluginConfig).value = none ∧
        (CreatePluginConfig d t log serviceId pluginName pluginConfig).err =
          some ("could not create service plugin config, error: " ++ body))) := by
  refine ⟨?_, ?_⟩
  · intro c
    unfold CreatePluginConfig
    dsimp only
    split
    · simp
    · rename_i status body ht
      split_ifs
      · simp
      · split
        · simp
        · rename_i decoded hd
          split_ifs with hid
          · simp
          · intro h
            simp only [Option.some.injEq] at h
            subst h
            exact ⟨hid, status, body, decoded, ht, hd, rfl, rfl⟩
  · intro status body decoded ht h401 h403 hd
    constructor
    · intro hid
      simp [CreatePluginConfig, ht, h401, h403, hd, hid]
    · intro hid
      simp [CreatePluginConfig, ht, h401, h403, hd, hid]

/-- C12, on a remote side that answers 201 with a body carrying an
identifier, and on one that answers 200 with a body lacking it. -/
theorem createPluginConfig_keeps_body_witness :
    (CreatePluginConfig sampleDecoders (constTransport 201 "cfg") [] "abc" "jwt" "key").value =
        some ⟨"c1", "cfg"⟩ ∧
      (CreatePluginConfig sampleDecoders (constTransport 200 "\x7b\x7d") [] "abc" "jwt"
        "key").value = none ∧
      (CreatePluginConfig sampleDecoders (constTransport 200 "\x7b\x7d") [] "abc" "jwt"
        "key").err = some ("could not create service plugin config, error: " ++ "\x7b\x7d") := by
  have h1 := ((createPluginConfig_keeps_body sampleDecoders (constTransport 201 "cfg") [] "abc"
    "jwt" "key").2 201 "cfg" ⟨"c1", ""⟩ rfl (by decide) (by decide)
    (by simp [sampleDecoders])).1 (by decide)
  have h2 := ((createPluginConfig_keeps_body sampleDecoders (constTransport 200 "\x7b\x7d") []
    "abc" "jwt" "key").2 200 "\x7b\x7d" ⟨"", ""⟩ rfl (by decide) (by decide)
    (by simp [sampleDecoders])).2 rfl
  exact ⟨h1.1, h2.1, h2.2⟩

/-- C13, as the code has it: after `Create` returns, whatever the remote side
answered, the caller's request record holds name, protocol, host, path, url
and tags as before the call, and each of port, retries and the connect, read
and write timeouts holds the value it had when it was set and the default
80, 5, 60000, 60000, 60000 when it was absent; so a request with all five
set is left as it was. -/
theorem create_request_after {ρ : Type} (d : Decoders ρ) (t : Transport)
    (log : List HttpRequest) (r : ServiceRequest) :
    (Create d t log r).request.Name = r.Name ∧
    (Create d t log r).request.Protocol = r.Protocol ∧
    (Create d t log r).request.Host = r.Host ∧
    (Create d t log r).request.Path = r.Path ∧
    (Create d t log r).request.Url = r.Url ∧
    (Create d t log r).request.Tags = r.Tags ∧
    (Create d t log r).request.Port = some (r.Port.getD 80) ∧
    (Create d t log r).request.Retries = some (r.Retries.getD 5) ∧
    (Create d t log r).request.ConnectTimeout = some (r.ConnectTimeout.getD 60000) ∧
    (Create d t log r).request.ReadTimeout = some (r.ReadTimeout.getD 60000) ∧
    (Create d t log r).request.WriteTimeout = some (r.WriteTimeout.getD 60000) ∧
    (r.Port ≠ none ∧ r.Retries ≠ none ∧ r.ConnectTimeout ≠ none ∧ r.ReadTimeout ≠ none ∧
        r.WriteTimeout ≠ none →
      (Create d t log r).request = r) := by
  obtain ⟨h1, h2, h3, h4, h5, h6, h7, h8, h9, h10, h11⟩ := injectDefaults_fields r
  rw [Create_request]
  refine ⟨h6, h7, h8, h9, h10, h11, h1, h2, h3, h4, h5, ?_⟩
  rintro ⟨hp, hr, hc, hrd, hw⟩
  simp [injectDefaults, hp, hr, hc, hrd, hw]

/-- C13 fails as stated: the sample request has no port, retries or timeouts
before `Create`, and holds 80, 5 and 60000 in them after the call. -/
theorem create_request_after_counterexample :
    sampleRequest.Port = none ∧ sampleRequest.Retries = none ∧
      sampleRequest.ConnectTimeout = none ∧
      (Create sampleDecoders (constTransport 200 "svc") [] sampleRequest).request.Port =
        some 80 ∧
      (Create sampleDecoders (constTransport 200 "svc") [] sampleRequest).request.Retries =
        some 5 ∧
      (Create sampleDecoders (constTransport 200 "svc") [] sampleRequest).request.ConnectTimeout =
        some 60000 ∧
      (Create sampleDecoders (constTransport 200 "svc") [] sampleRequest).request ≠
        sampleRequest :=
  ⟨rfl, rfl, rfl, by decide, by decide, by decide, by decide⟩

end Gokong
